import Mathlib

/-!
Verification of the MSSQL MCP server core (repository `ssdavidai/azure-mcp`)
against its design specification.

The embedding below models `src/src/index.ts`:
* the connection lifecycle manager (`ensureSqlConnection`, lines 71-94,
  together with the expiry computation of `createSqlConfig`, lines 63-67),
* tool registration and read-only gating (lines 104-136),
* the per-invocation error handler (lines 137-161),
* an interleaving model of concurrent `ensureSqlConnection` calls
  (JavaScript event-loop semantics: code between `await` points is atomic),
* the query safety validator, which lives in the tool classes that are absent
  from the source tree and is therefore modelled from the specification.

Dates are modelled as integers (milliseconds since the epoch), matching the
JavaScript `Date`/`Date.now()` arithmetic used by the source.  JavaScript
truthiness is embedded faithfully where the source relies on it: a string is
falsy exactly when it is empty, and a number is falsy exactly when it is zero.
-/

namespace AzMcp

/-! ### Connection lifecycle state (src/src/index.ts lines 28-31) -/

/-- A pooled connection handle (`sql.ConnectionPool`): an identity plus the
`connected` flag exposed by the driver. -/
structure Pool where
  id : Nat
  connected : Bool
deriving DecidableEq

/-- The three global variables of src/src/index.ts lines 29-31:
`globalSqlPool`, `globalAccessToken`, `globalTokenExpiresOn`. -/
structure GState where
  pool : Option Pool
  token : Option String
  expiresOn : Option Int
deriving DecidableEq

/-- The value resolved by `credential.getToken` (src/src/index.ts line 45):
a token string and an optional numeric expiry timestamp. -/
structure AccessToken where
  token : String
  expiresOnTimestamp : Option Int
deriving DecidableEq

/-- The expiry instant computed by `createSqlConfig` (src/src/index.ts
lines 64-66): `accessToken?.expiresOnTimestamp ? new Date(ts) : new
Date(Date.now() + 30*60*1000)`.  JavaScript truthiness makes a timestamp of
`0` take the default branch. -/
def tokenExpiry (acc : AccessToken) (now : Int) : Int :=
  match acc.expiresOnTimestamp with
  | some ts => if ts ≠ 0 then ts else now + 30 * 60 * 1000
  | none => now + 30 * 60 * 1000

/-- The fast-path guard of `ensureSqlConnection` (src/src/index.ts lines
73-79): `globalSqlPool && globalSqlPool.connected && globalAccessToken &&
globalTokenExpiresOn && globalTokenExpiresOn > new Date(Date.now() +
2*60*1000)`.  JavaScript truthiness of `globalAccessToken` makes an empty
token string fail the guard. -/
def fastPath (st : GState) (now : Int) : Bool :=
  match st.pool, st.token, st.expiresOn with
  | some p, some t, some e =>
      p.connected && (t != "") && decide (e > now + 2 * 60 * 1000)
  | _, _, _ => false

/-- Observable network events performed by `ensureSqlConnection`: the
credential-provider request, closing a pool, opening a pool. -/
inductive Ev where
  | tokenCall
  | closePool (id : Nat)
  | openPool (id : Nat)
deriving DecidableEq

/-- The effect of `await globalSqlPool.close()` (src/src/index.ts lines
89-91) on the stored handle: the same pool object, now disconnected; a pool
that does not report connected is left alone. -/
def closeIfConnected : Option Pool → Option Pool
  | some p => if p.connected then some { p with connected := false } else some p
  | none => none

/-- The close events emitted by src/src/index.ts lines 89-91. -/
def closeEvents : Option Pool → List Ev
  | some p => if p.connected then [Ev.closePool p.id] else []
  | none => []

/-- The environment of one `ensureSqlConnection` call: the current clock and
the outcomes the external world would give to the credential request and the
pool-open request. -/
structure Env where
  now : Int
  tokenRes : Except String AccessToken
  connectRes : Except String Nat

/-- Embedding of `ensureSqlConnection` (src/src/index.ts lines 71-94) as a
single sequential call.  Returns the final global state, the call outcome, and
the list of network events in the order the source performs them: token
acquisition (line 84), assignment of `globalAccessToken` and
`globalTokenExpiresOn` (lines 85-86), closing a connected previous pool
(lines 89-91), opening and installing the new pool (line 93).  A failure of
the token request or of the pool open aborts the call at that point, leaving
the state reached so far. -/
def ensureSqlConnection (env : Env) (st : GState) :
    GState × Except String Unit × List Ev :=
  if fastPath st env.now then (st, Except.ok (), [])
  else
    match env.tokenRes with
    | Except.error e => (st, Except.error e, [Ev.tokenCall])
    | Except.ok acc =>
        let st1 : GState :=
          { st with token := some acc.token,
                    expiresOn := some (tokenExpiry acc env.now) }
        let st2 : GState := { st1 with pool := closeIfConnected st1.pool }
        let evs : List Ev := Ev.tokenCall :: closeEvents st1.pool
        match env.connectRes with
        | Except.error e => (st2, Except.error e, evs)
        | Except.ok pid =>
            ({ st2 with pool := some ⟨pid, true⟩ }, Except.ok (),
              evs ++ [Ev.openPool pid])

/-- The set of pool identities that are connected, folded over the event
trace: a close removes the pool, an open adds it. -/
def liveStep (live : List Nat) : Ev → List Nat
  | Ev.tokenCall => live
  | Ev.closePool i => live.filter (fun x => x != i)
  | Ev.openPool i => live ++ [i]

/-- Connected pools after a sequence of events, starting from `init`. -/
def liveAfter (init : List Nat) (evs : List Ev) : List Nat :=
  evs.foldl liveStep init

/-- Connected pools before the call starts: the stored pool, if connected. -/
def initLive (st : GState) : List Nat :=
  match st.pool with
  | some p => if p.connected then [p.id] else []
  | none => []

/-! ### Interleaved execution of concurrent `ensureSqlConnection` calls

JavaScript runs a single-threaded event loop: the code between two `await`
points executes atomically, but at each `await` other in-flight calls may
run.  `ensureSqlConnection` has three suspension points: the token request
(line 84), `globalSqlPool.close()` (line 90) and `sql.connect` (line 93).
The program counter below names the segment a task resumes into. -/

inductive PC where
  | ready
  | tokenPending
  | closePending
  | connectPending
  | done
deriving DecidableEq

/-- Per-task state: its program counter and, while a close is in flight, the
pool object it captured when calling `close()`. -/
structure TaskSt where
  pc : PC
  closing : Option Nat
deriving DecidableEq

/-- Per-task environment: the token its credential request resolves to, the
identity of the pool its `sql.connect` would create, and its clock reading. -/
structure TaskCfg where
  tokenRes : AccessToken
  newId : Nat
  now : Int

/-- The shared world: every pool object ever created (with its `connected`
flag), the `globalSqlPool` reference, the token and expiry globals, the task
states, and the observable event trace tagged by task. -/
structure World where
  pools : List (Nat × Bool)
  cur : Option Nat
  token : Option String
  expiresOn : Option Int
  tasks : List TaskSt
  trace : List (Nat × Ev)
deriving DecidableEq

/-- Whether pool object `i` currently reports connected. -/
def poolConnected (pools : List (Nat × Bool)) (i : Nat) : Bool :=
  (pools.lookup i).getD false

/-- Mark pool object `i` as disconnected. -/
def setPoolClosed (pools : List (Nat × Bool)) (i : Nat) : List (Nat × Bool) :=
  pools.map (fun kv => if kv.1 == i then (kv.1, false) else kv)

/-- Number of pool objects currently reporting connected. -/
def connectedCount (pools : List (Nat × Bool)) : Nat :=
  (pools.filter (fun kv => kv.2)).length

/-- The fast-path guard of src/src/index.ts lines 73-79 read against the
shared world. -/
def wFast (w : World) (now : Int) : Bool :=
  match w.cur, w.token, w.expiresOn with
  | some i, some t, some e =>
      poolConnected w.pools i && (t != "") && decide (e > now + 2 * 60 * 1000)
  | _, _, _ => false

/-- One atomic segment of task `tid` running `ensureSqlConnection`, exactly
the code between two `await` points of src/src/index.ts lines 71-94. -/
def stepTask (cfg : TaskCfg) (tid : Nat) (w : World) : World :=
  match w.tasks.get? tid with
  | none => w
  | some ts =>
    match ts.pc with
    | PC.ready =>
        if wFast w cfg.now then
          { w with tasks := w.tasks.set tid { ts with pc := PC.done } }
        else
          { w with tasks := w.tasks.set tid { ts with pc := PC.tokenPending },
                   trace := w.trace ++ [(tid, Ev.tokenCall)] }
    | PC.tokenPending =>
        let w1 : World :=
          { w with token := some cfg.tokenRes.token,
                   expiresOn := some (tokenExpiry cfg.tokenRes cfg.now) }
        match w.cur with
        | some i =>
            if poolConnected w.pools i then
              let ts1 : TaskSt := { ts with pc := PC.closePending, closing := some i }
              { w1 with tasks := w.tasks.set tid ts1 }
            else
              let ts1 : TaskSt := { ts with pc := PC.connectPending }
              { w1 with tasks := w.tasks.set tid ts1 }
        | none =>
            let ts1 : TaskSt := { ts with pc := PC.connectPending }
            { w1 with tasks := w.tasks.set tid ts1 }
    | PC.closePending =>
        match ts.closing with
        | some i =>
            { w with pools := setPoolClosed w.pools i,
                     trace := w.trace ++ [(tid, Ev.closePool i)],
                     tasks := w.tasks.set tid { ts with pc := PC.connectPending } }
        | none => w
    | PC.connectPending =>
        { w with pools := w.pools ++ [(cfg.newId, true)],
                 cur := some cfg.newId,
                 trace := w.trace ++ [(tid, Ev.openPool cfg.newId)],
                 tasks := w.tasks.set tid { ts with pc := PC.done } }
    | PC.done => w

/-- Run a schedule (a list of task identifiers to step) over the world. -/
def runSched (cfgs : List TaskCfg) (sched : List Nat) (w : World) : World :=
  sched.foldl (fun acc tid =>
    match cfgs.get? tid with
    | some cfg => stepTask cfg tid acc
    | none => acc) w

/-! ### Tool registration and read-only gating (src/src/index.ts 104-136) -/

/-- A tool as seen by the registration loop: its advertised name. -/
structure Tool where
  name : String
deriving DecidableEq

/-- Modelled from the spec: the tool classes under `src/tools/` are not in
the source tree; the tool names follow the repository README ("Available
Tools"): `list_tables`, `read_data`, `describe_table`, `insert_data`,
`update_data`, `create_table`, `create_index`, `drop_table`. -/
def listTableTool : Tool := ⟨"list_tables"⟩

/-- Modelled from the spec: see `listTableTool`. -/
def readDataTool : Tool := ⟨"read_data"⟩

/-- Modelled from the spec: see `listTableTool`. -/
def describeTableTool : Tool := ⟨"describe_table"⟩

/-- Modelled from the spec: see `listTableTool`. -/
def insertDataTool : Tool := ⟨"insert_data"⟩

/-- Modelled from the spec: see `listTableTool`. -/
def updateDataTool : Tool := ⟨"update_data"⟩

/-- Modelled from the spec: see `listTableTool`. -/
def createTableTool : Tool := ⟨"create_table"⟩

/-- Modelled from the spec: see `listTableTool`. -/
def createIndexTool : Tool := ⟨"create_index"⟩

/-- Modelled from the spec: see `listTableTool`. -/
def dropTableTool : Tool := ⟨"drop_table"⟩

/-- The tool list registered for a given read-only flag (src/src/index.ts
lines 114-117). -/
def toolsFor (readOnly : Bool) : List Tool :=
  if readOnly then [listTableTool, readDataTool, describeTableTool]
  else [insertDataTool, readDataTool, describeTableTool, updateDataTool,
        createTableTool, createIndexTool, dropTableTool, listTableTool]

/-- One declared input-schema property of a tool: its JSON type tag and
optional description. -/
structure PropSpec where
  type : String
  description : Option String
deriving DecidableEq

/-- The Zod field built for a property that survives the conversion. -/
inductive ZodField where
  | str (desc : String)
  | obj (desc : String)
deriving DecidableEq

/-- The per-property conversion of src/src/index.ts lines 124-130: a
`string` property becomes `z.string()`, an `object` property becomes
`z.object({})`, everything else is dropped.  `value.description || ''`
defaults a missing description to the empty string. -/
def zodField (p : PropSpec) : Option ZodField :=
  if p.type == "string" then some (ZodField.str (p.description.getD ""))
  else if p.type == "object" then some (ZodField.obj (p.description.getD ""))
  else none

/-- The argument schema registered for a tool (src/src/index.ts lines
122-131), built over the declared properties in order. -/
def zodSchema (props : List (String × PropSpec)) : List (String × ZodField) :=
  props.filterMap (fun kv => (zodField kv.2).map (fun f => (kv.1, f)))

/-! ### The per-invocation handler (src/src/index.ts lines 137-161) -/

/-- A thrown JavaScript value: its string rendering (used by the template
literal) and, when it is an `Error` instance, its `message`. -/
structure JsError where
  rendered : String
  errMessage : Option String
deriving DecidableEq

/-- The structured failure object of src/src/index.ts lines 152-156. -/
structure FailurePayload where
  success : Bool
  message : String
  error : String
deriving DecidableEq

/-- One content item of a tool response: the stringified result on success,
the structured failure payload otherwise. -/
inductive ContentItem where
  | text (s : String)
  | failure (p : FailurePayload)
deriving DecidableEq

/-- A tool response: content plus the `isError` flag (absent means false). -/
structure CallResult where
  content : List ContentItem
  isError : Bool
deriving DecidableEq

/-- The catch branch of src/src/index.ts lines 148-159. -/
def failureResult (e : JsError) : CallResult :=
  { content := [ContentItem.failure
      { success := false,
        message := "Error occurred: " ++ e.rendered,
        error := e.errMessage.getD "Unknown error" }],
    isError := true }

/-- The tool handler of src/src/index.ts lines 137-161: run
`ensureSqlConnection`, then the tool body, inside one try/catch whose catch
produces the structured failure result.  `runRes` is the outcome of
`tool.run(args)` followed by `JSON.stringify` of its result. -/
def toolHandler (ensureRes : Except JsError Unit)
    (runRes : Except JsError String) : CallResult :=
  match ensureRes with
  | Except.error e => failureResult e
  | Except.ok _ =>
      match runRes with
      | Except.error e => failureResult e
      | Except.ok r => { content := [ContentItem.text r], isError := false }

/-! ### Query safety validator

Modelled from the spec: the validator lives in `src/tools/ReadDataTool.ts`,
which is absent from the source tree.  The definitions below follow the
policy of spec section 4.2 word for word: ordered checks, first match wins —
empty fragment, multi-statement separator, denylisted keyword as a whole
word (case-insensitively), comment sequence not at end of input, and a
non-SELECT/WITH leading keyword. -/

/-- A word character for the whole-word keyword check: letters, digits,
underscore. -/
def isWordChar (c : Char) : Bool := c.isAlphanum || c == '_'

/-- Split a character list into its maximal runs of word characters; `acc`
holds the current run, reversed. -/
def wordsAux : List Char → List Char → List (List Char)
  | [], acc => if acc.isEmpty then [] else [acc.reverse]
  | c :: cs, acc =>
      if isWordChar c then wordsAux cs (c :: acc)
      else if acc.isEmpty then wordsAux cs []
      else acc.reverse :: wordsAux cs []

/-- The whole words of a SQL fragment, as character runs. -/
def sqlWords (s : String) : List (List Char) :=
  wordsAux s.data []

/-- Modelled from the spec: the fixed denylist of data-modification and
schema-modification keywords (spec section 4.2, step 3). -/
def denylist : List String :=
  ["INSERT", "UPDATE", "DELETE", "DROP", "ALTER", "CREATE", "TRUNCATE",
   "EXEC", "EXECUTE", "MERGE", "GRANT", "REVOKE", "BACKUP", "RESTORE"]

/-- Whether some whole word of the fragment is, case-insensitively, a
denylisted keyword: the word, uppercased character by character, is compared
against the denylist. -/
def containsDenylisted (s : String) : Bool :=
  (sqlWords s).any
    (fun w => (denylist.map String.data).contains (w.map Char.toUpper))

/-- Whether a statement separator is followed by further non-whitespace
content (spec section 4.2, step 2): checks everything after the first
semicolon (any later semicolon is itself non-whitespace content). -/
def semicolonContent : List Char → Bool
  | [] => false
  | c :: cs =>
      if c == ';' then cs.any (fun d => !d.isWhitespace)
      else semicolonContent cs

/-- Step 2 of the policy over the raw fragment text. -/
def hasMultiStatement (s : String) : Bool := semicolonContent s.data

/-- Whether a comment-opening sequence (`--` or `/*`) occurs and is not
immediately followed by end of input (spec section 4.2, step 4). -/
def commentContent : List Char → Bool
  | '-' :: '-' :: rest => !rest.isEmpty
  | '/' :: '*' :: rest => !rest.isEmpty
  | _ :: cs => commentContent cs
  | [] => false

/-- Case-insensitive keyword match at the start of a character list,
returning the remainder on success.  The keyword is given in upper case. -/
def kwMatch : List Char → List Char → Option (List Char)
  | [], cs => some cs
  | _ :: _, [] => none
  | k :: ks, c :: cs => if c.toUpper == k then kwMatch ks cs else none

/-- Whether the fragment, after leading whitespace, begins with the given
keyword as a whole word (spec section 4.2, step 5; comments need not be
stripped because any fragment containing comment content is already rejected
by step 4). -/
def beginsWithKeyword (kw : String) (s : String) : Bool :=
  match kwMatch kw.data (s.data.dropWhile Char.isWhitespace) with
  | some [] => true
  | some (c :: _) => !isWordChar c
  | none => false

/-- Step 5: only `SELECT` or a `WITH` common-table-expression may lead. -/
def startsSelectOrWith (s : String) : Bool :=
  beginsWithKeyword "SELECT" s || beginsWithKeyword "WITH" s

/-- Rejection reasons of the validator, in policy order. -/
inductive Reason where
  | empty
  | multiStatement
  | keyword
  | comment
  | notSelect
deriving DecidableEq

/-- The validator verdict. -/
inductive Verdict where
  | accept
  | reject (r : Reason)
deriving DecidableEq

/-- Modelled from the spec: the query safety validator of spec section 4.2,
ordered checks with first match winning.  The operating mode does not change
the read-path policy (write-oriented tools bypass the validator entirely),
so it is not a parameter here. -/
def validate (s : String) : Verdict :=
  if s.data.all Char.isWhitespace then Verdict.reject Reason.empty
  else if hasMultiStatement s then Verdict.reject Reason.multiStatement
  else if containsDenylisted s then Verdict.reject Reason.keyword
  else if commentContent s.data then Verdict.reject Reason.comment
  else if !startsSelectOrWith s then Verdict.reject Reason.notSelect
  else Verdict.accept

/-! ### Helper lemmas -/

/-- After a token call and the close of pool `i`, any prefix of the event
trace leaves at most one connected pool when starting from `{i}`. -/
theorem liveAfter_close_take (i : Nat) (n : Nat) :
    (liveAfter [i] (List.take n [Ev.tokenCall, Ev.closePool i])).length ≤ 1 := by
  match n with
  | 0 => simp [liveAfter]
  | 1 => simp [liveAfter, liveStep]
  | Nat.succ (Nat.succ k) =>
      rw [List.take_of_length_le (by simp)]
      simp [liveAfter, liveStep]

/-- After a token call, the close of pool `i` and the open of pool `j`, any
prefix of the event trace leaves at most one connected pool when starting
from `{i}`. -/
theorem liveAfter_close_open_take (i j : Nat) (n : Nat) :
    (liveAfter [i] (List.take n [Ev.tokenCall, Ev.closePool i, Ev.openPool j])).length ≤ 1 := by
  match n with
  | 0 => simp [liveAfter]
  | 1 => simp [liveAfter, liveStep]
  | 2 => simp [liveAfter, liveStep]
  | Nat.succ (Nat.succ (Nat.succ k)) =>
      rw [List.take_of_length_le (by simp)]
      simp [liveAfter, liveStep]

/-- A semicolon followed (anywhere) by non-whitespace content makes
`semicolonContent` fire. -/
theorem semicolonContent_of_decomp (l r : List Char) (c : Char)
    (hc : c ∈ r) (hw : c.isWhitespace = false) :
    semicolonContent (l ++ ';' :: r) = true := by
  induction l with
  | nil =>
      simp only [List.nil_append, semicolonContent, beq_self_eq_true, if_true]
      exact List.any_eq_true.mpr ⟨c, hc, by simp [hw]⟩
  | cons a l ih =>
      simp only [List.cons_append, semicolonContent]
      by_cases ha : a = ';'
      · subst ha
        simp only [beq_self_eq_true, if_true]
        exact List.any_eq_true.mpr
          ⟨c, List.mem_append_right l (List.mem_cons_of_mem _ hc), by simp [hw]⟩
      · simpa [ha] using ih

/-- If the only semicolon is followed exclusively by whitespace,
`semicolonContent` does not fire. -/
theorem semicolonContent_trailing (m w : List Char)
    (hm : ';' ∉ m) (hw : ∀ d ∈ w, d.isWhitespace = true) :
    semicolonContent (m ++ ';' :: w) = false := by
  induction m with
  | nil =>
      simp only [List.nil_append, semicolonContent, beq_self_eq_true, if_true]
      simp only [List.any_eq_false]
      intro d hd
      simp [hw d hd]
  | cons a m ih =>
      have ha : a ≠ ';' := fun h => hm (h ▸ List.mem_cons_self a m)
      have hab : (a == ';') = false := by simp [ha]
      simp only [List.cons_append, semicolonContent, hab, Bool.false_eq_true,
        if_false]
      exact ih (fun h => hm (List.mem_cons_of_mem a h))

/-- Unfolding `zodSchema` over one declared property. -/
theorem zodSchema_cons (kv : String × PropSpec) (rest : List (String × PropSpec)) :
    zodSchema (kv :: rest)
      = match zodField kv.2 with
        | some f => (kv.1, f) :: zodSchema rest
        | none => zodSchema rest := by
  unfold zodSchema
  rw [List.filterMap_cons]
  cases zodField kv.2 <;> simp

/-- The keys that survive the Zod conversion are exactly the keys of the
properties declared with type `string` or `object`. -/
theorem zodSchema_keys_aux (props : List (String × PropSpec)) :
    (zodSchema props).map Prod.fst
      = (props.filter (fun kv => kv.2.type == "string" || kv.2.type == "object")).map
          Prod.fst := by
  induction props with
  | nil => rfl
  | cons kv rest ih =>
      rw [zodSchema_cons, List.filter_cons]
      by_cases hs : kv.2.type = "string"
      · simp [zodField, hs, ih]
      · by_cases ho : kv.2.type = "object"
        · simp [zodField, hs, ho, ih]
        · simp [zodField, hs, ho, ih]

/-! ### Claims -/

/-- C1 counterexample.  During a refresh whose pool open fails, the stored
token has already been replaced: with a connected prior pool, an expired
token, a successful token request and a failing `sql.connect`, the call
fails yet the stored token is no longer the prior one — the prior session
state is not left untouched, refuting the claim that token, expiry and pool
handle are only swapped in after the new pool is fully open
(src/src/index.ts assigns the globals at lines 85-86, before line 93). -/
theorem ensureSqlConnection_install_order_cex :
    (ensureSqlConnection
        ⟨1000000, Except.ok ⟨"newtok", some 99999999⟩, Except.error "connect refused"⟩
        ⟨some ⟨1, true⟩, some "oldtok", some 0⟩).2.1 = Except.error "connect refused"
    ∧ (ensureSqlConnection
        ⟨1000000, Except.ok ⟨"newtok", some 99999999⟩, Except.error "connect refused"⟩
        ⟨some ⟨1, true⟩, some "oldtok", some 0⟩).1.token ≠ some "oldtok" := by
  exact ⟨rfl, by decide⟩

/-- C1, amended.  If the token request fails, no session state is modified;
if the pool open fails, the pool handle is not replaced — the prior pool
remains, closed if it was connected — but the freshly acquired token and
expiry are already installed (src/src/index.ts lines 85-86 run before
line 93). -/
theorem ensureSqlConnection_failure_semantics
    (env : Env) (st : GState) (acc : AccessToken) (e : String)
    (h1 : fastPath st env.now = false)
    (h2 : env.tokenRes = Except.error e
          ∨ (env.tokenRes = Except.ok acc ∧ env.connectRes = Except.error e)) :
    ensureSqlConnection env st = (st, Except.error e, [Ev.tokenCall])
    ∨ ensureSqlConnection env st
        = ({ pool := closeIfConnected st.pool, token := some acc.token,
             expiresOn := some (tokenExpiry acc env.now) },
           Except.error e, Ev.tokenCall :: closeEvents st.pool) := by
  rcases h2 with h | ⟨ht, hc⟩
  · left
    simp [ensureSqlConnection, h1, h]
  · right
    simp [ensureSqlConnection, h1, ht, hc]

/-- C1 witness: the amended statement at a concrete refresh whose pool open
fails. -/
theorem ensureSqlConnection_failure_semantics_witness :
    ensureSqlConnection ⟨500, Except.ok ⟨"tk", some 999999⟩, Except.error "boom"⟩
        ⟨some ⟨7, true⟩, some "old", some 0⟩
      = (⟨some ⟨7, true⟩, some "old", some 0⟩, Except.error "boom", [Ev.tokenCall])
    ∨ ensureSqlConnection ⟨500, Except.ok ⟨"tk", some 999999⟩, Except.error "boom"⟩
        ⟨some ⟨7, true⟩, some "old", some 0⟩
      = ({ pool := closeIfConnected (some ⟨7, true⟩), token := some "tk",
           expiresOn := some (tokenExpiry ⟨"tk", some 999999⟩ 500) },
         Except.error "boom", Ev.tokenCall :: closeEvents (some ⟨7, true⟩)) :=
  ensureSqlConnection_failure_semantics _ _ ⟨"tk", some 999999⟩ "boom" (by decide)
    (Or.inr ⟨rfl, rfl⟩)

/-- C2 counterexample.  A session whose stored token is the empty string is
a session (pool present and connected, expiry far in the future), yet the
call refreshes — three network events and a changed state — because
`globalAccessToken &&` in src/src/index.ts line 76 is a JavaScript
truthiness test and the empty string is falsy. -/
theorem ensureSqlConnection_fast_path_cex :
    (ensureSqlConnection ⟨0, Except.ok ⟨"fresh", some 7200000⟩, Except.ok 2⟩
        ⟨some ⟨1, true⟩, some "", some 1000000000⟩).2.2
      = [Ev.tokenCall, Ev.closePool 1, Ev.openPool 2]
    ∧ (ensureSqlConnection ⟨0, Except.ok ⟨"fresh", some 7200000⟩, Except.ok 2⟩
        ⟨some ⟨1, true⟩, some "", some 1000000000⟩).1
      ≠ ⟨some ⟨1, true⟩, some "", some 1000000000⟩ := by
  decide

/-- C2, amended.  With a session whose stored token is non-empty, whose pool
reports connected and whose expiry is more than 2 minutes after the current
time, `ensureSqlConnection` returns at the fast path: no network events and
an unchanged state (src/src/index.ts lines 73-81). -/
theorem ensureSqlConnection_fast_path
    (env : Env) (st : GState) (p : Pool) (t : String) (e : Int)
    (h1 : st.pool = some p) (h2 : p.connected = true)
    (h3 : st.token = some t) (h4 : t ≠ "")
    (h5 : st.expiresOn = some e) (h6 : e > env.now + 2 * 60 * 1000) :
    ensureSqlConnection env st = (st, Except.ok (), ([] : List Ev)) := by
  have hf : fastPath st env.now = true := by
    simp only [fastPath, h1, h3, h5, h2, Bool.true_and, bne_iff_ne, ne_eq,
      Bool.and_eq_true, decide_eq_true_eq]
    exact ⟨by simpa using h4, by omega⟩
  simp [ensureSqlConnection, hf]

/-- C2 witness: the fast path at a concrete valid session; the environment's
token and connect outcomes are error values, so the call consults neither. -/
theorem ensureSqlConnection_fast_path_witness :
    ensureSqlConnection ⟨0, Except.error "unused", Except.error "unused"⟩
        ⟨some ⟨1, true⟩, some "tok", some 300000⟩
      = (⟨some ⟨1, true⟩, some "tok", some 300000⟩, Except.ok (), ([] : List Ev)) :=
  ensureSqlConnection_fast_path _ _ ⟨1, true⟩ "tok" 300000 rfl rfl rfl (by decide) rfl
    (by decide)

/-- C3.  On every refresh that finds a connected prior pool and acquires a
token, the trace starts with the token call followed immediately by the
close of the prior pool — so the close precedes any pool open — and every
prefix of the event trace leaves at most one connected pool
(src/src/index.ts lines 88-93). -/
theorem ensureSqlConnection_close_before_open
    (env : Env) (st : GState) (p : Pool) (acc : AccessToken) (n : Nat)
    (h1 : fastPath st env.now = false)
    (h2 : st.pool = some p)
    (h3 : p.connected = true)
    (h4 : env.tokenRes = Except.ok acc) :
    ((ensureSqlConnection env st).2.2).take 2 = [Ev.tokenCall, Ev.closePool p.id]
    ∧ (liveAfter (initLive st)
        (((ensureSqlConnection env st).2.2).take n)).length ≤ 1 := by
  have hinit : initLive st = [p.id] := by simp [initLive, h2, h3]
  cases hc : env.connectRes with
  | error e =>
      have htr : (ensureSqlConnection env st).2.2
          = [Ev.tokenCall, Ev.closePool p.id] := by
        simp [ensureSqlConnection, h1, h4, hc, closeEvents, h2, h3]
      rw [htr, hinit]
      exact ⟨rfl, liveAfter_close_take p.id n⟩
  | ok pid =>
      have htr : (ensureSqlConnection env st).2.2
          = [Ev.tokenCall, Ev.closePool p.id, Ev.openPool pid] := by
        simp [ensureSqlConnection, h1, h4, hc, closeEvents, h2, h3]
      rw [htr, hinit]
      exact ⟨rfl, liveAfter_close_open_take p.id pid n⟩

/-- C3 witness: a concrete refresh with an expired token and a connected
prior pool. -/
theorem ensureSqlConnection_close_before_open_witness :
    ((ensureSqlConnection ⟨1000000, Except.ok ⟨"t2", some 5000000⟩, Except.ok 2⟩
        ⟨some ⟨1, true⟩, some "t1", some 0⟩).2.2).take 2
      = [Ev.tokenCall, Ev.closePool 1]
    ∧ (liveAfter (initLive ⟨some ⟨1, true⟩, some "t1", some 0⟩)
        (((ensureSqlConnection ⟨1000000, Except.ok ⟨"t2", some 5000000⟩, Except.ok 2⟩
            ⟨some ⟨1, true⟩, some "t1", some 0⟩).2.2).take 3)).length ≤ 1 :=
  ensureSqlConnection_close_before_open _ _ ⟨1, true⟩ ⟨"t2", some 5000000⟩ 3 (by decide)
    rfl rfl rfl

/-- C4.  The source has no mutual-exclusion guard: the globals of
src/src/index.ts lines 29-31 are written between `await` points.  Two
concurrent `ensureSqlConnection` calls on a stale session can interleave so
that task 1 closes pool 2, which task 0 had just opened and installed
(first schedule), and so that two connected pools exist simultaneously at
the end (second schedule: pools 2 and 3 both connected). -/
theorem ensureSqlConnection_concurrent_race :
    (runSched
        [⟨⟨"tokA", some 9999999⟩, 2, 1000000⟩, ⟨⟨"tokB", some 9999999⟩, 3, 1000000⟩]
        [0, 1, 0, 0, 0, 1, 1, 1]
        ⟨[(1, true)], some 1, some "t0", some 0,
          [⟨PC.ready, none⟩, ⟨PC.ready, none⟩], []⟩).trace
      = [(0, Ev.tokenCall), (1, Ev.tokenCall), (0, Ev.closePool 1),
         (0, Ev.openPool 2), (1, Ev.closePool 2), (1, Ev.openPool 3)]
    ∧ connectedCount
        (runSched
          [⟨⟨"tokA", some 9999999⟩, 2, 1000000⟩, ⟨⟨"tokB", some 9999999⟩, 3, 1000000⟩]
          [0, 1, 0, 0, 1, 1, 0]
          ⟨[(1, true)], some 1, some "t0", some 0,
            [⟨PC.ready, none⟩, ⟨PC.ready, none⟩], []⟩).pools = 2 := by
  decide

/-- C5.  In read-only mode the registered operation names are exactly
`list_tables`, `read_data`, `describe_table`, and none of the write-oriented
tools is registered (src/src/index.ts lines 114-117). -/
theorem toolsFor_readOnly_names :
    (toolsFor true).map Tool.name = ["list_tables", "read_data", "describe_table"]
    ∧ "insert_data" ∉ (toolsFor true).map Tool.name
    ∧ "update_data" ∉ (toolsFor true).map Tool.name
    ∧ "create_table" ∉ (toolsFor true).map Tool.name
    ∧ "create_index" ∉ (toolsFor true).map Tool.name
    ∧ "drop_table" ∉ (toolsFor true).map Tool.name := by
  decide

/-- C6.  The validator rejects denylisted keywords as whole words,
case-insensitively — including when set off by punctuation rather than
spaces — and does not reject identifiers that merely contain a denylisted
word as a substring (`Updates`, `updates_log`, `Exec_Id`). -/
theorem validate_keyword_whole_word :
    validate "UPDATE Users SET x=1" = Verdict.reject Reason.keyword
    ∧ validate "delete from Users" = Verdict.reject Reason.keyword
    ∧ validate "SELECT a,(drop) b FROM t" = Verdict.reject Reason.keyword
    ∧ validate "SELECT * FROM Updates" = Verdict.accept
    ∧ validate "SELECT * FROM updates_log" = Verdict.accept
    ∧ validate "SELECT x FROM t WHERE Exec_Id = 4" = Verdict.accept := by
  decide

/-- C7.  Any fragment in which a statement separator is followed by further
non-whitespace content is rejected as a multi-statement batch, while a
fragment whose only separator is followed by nothing but whitespace is never
rejected on that ground. -/
theorem validate_multi_statement
    (s u : String) (l r m w : List Char) (c : Char)
    (h1 : s.data = l ++ ';' :: r) (h2 : c ∈ r) (h3 : c.isWhitespace = false)
    (h4 : u.data = m ++ ';' :: w) (h5 : ';' ∉ m)
    (h6 : ∀ d ∈ w, d.isWhitespace = true) :
    validate s = Verdict.reject Reason.multiStatement
    ∧ validate u ≠ Verdict.reject Reason.multiStatement := by
  constructor
  · have hsemi : hasMultiStatement s = true := by
      rw [hasMultiStatement, h1]
      exact semicolonContent_of_decomp l r c h2 h3
    have hne : s.data.all Char.isWhitespace = false := by
      rw [h1]
      refine Bool.eq_false_iff.mpr (fun hall => ?_)
      have := List.all_eq_true.mp hall ';' (List.mem_append_right l (List.mem_cons_self _ _))
      simp at this
    simp [validate, hne, hsemi]
  · have hsemi : hasMultiStatement u = false := by
      rw [hasMultiStatement, h4]
      exact semicolonContent_trailing m w h5 h6
    simp only [validate, hsemi, Bool.false_eq_true, if_false]
    split
    · simp
    · split
      · simp
      · split
        · simp
        · split <;> simp

/-- C7 witness: the spec's multi-statement example is rejected and a single
trailing separator followed by whitespace is tolerated. -/
theorem validate_multi_statement_witness :
    validate "SELECT 1; DROP TABLE Users" = Verdict.reject Reason.multiStatement
    ∧ validate "SELECT 1; " ≠ Verdict.reject Reason.multiStatement :=
  validate_multi_statement "SELECT 1; DROP TABLE Users" "SELECT 1; "
    "SELECT 1".data " DROP TABLE Users".data "SELECT 1".data " ".data 'D'
    (by decide) (by decide) (by decide) (by decide) (by decide) (by decide)

/-- C8.  Every failure of connection establishment or of the tool body is
turned by the handler's catch into the structured failure result — content
carrying `success := false`, the message and the error detail, with the
`isError` flag set — and the handler is a total function, so no error
propagates past it (src/src/index.ts lines 137-161). -/
theorem toolHandler_structured_failure (e : JsError) (run : Except JsError String) :
    toolHandler (Except.error e) run = failureResult e
    ∧ toolHandler (Except.ok ()) (Except.error e) = failureResult e
    ∧ (failureResult e).isError = true
    ∧ (failureResult e).content
        = [ContentItem.failure
            ⟨false, "Error occurred: " ++ e.rendered, e.errMessage.getD "Unknown error"⟩] :=
  ⟨rfl, rfl, rfl, rfl⟩

/-- C9 counterexample.  A provider-supplied expiry timestamp of `0` is not
used: `accessToken?.expiresOnTimestamp ? ... : ...` (src/src/index.ts
line 64) tests JavaScript truthiness and `0` is falsy, so the session expiry
becomes now + 30 minutes instead of the supplied instant. -/
theorem tokenExpiry_zero_timestamp_cex :
    tokenExpiry ⟨"tok", some 0⟩ 5000 = 5000 + 30 * 60 * 1000
    ∧ tokenExpiry ⟨"tok", some 0⟩ 5000 ≠ 0 := by
  decide

/-- C9, amended.  A supplied nonzero expiry timestamp is used as the session
expiry; a missing expiry — or a zero timestamp, which JavaScript truthiness
treats as missing — defaults to exactly the current time plus 30 minutes
(src/src/index.ts lines 64-66). -/
theorem tokenExpiry_default (acc : AccessToken) (now ts : Int)
    (h : acc.expiresOnTimestamp = some ts) :
    tokenExpiry acc now = (if ts = 0 then now + 30 * 60 * 1000 else ts)
    ∧ tokenExpiry ⟨acc.token, none⟩ now = now + 30 * 60 * 1000 := by
  constructor
  · simp only [tokenExpiry, h]
    by_cases hts : ts = 0 <;> simp [hts]
  · rfl

/-- C9 witness: the amended statement at a concrete nonzero timestamp. -/
theorem tokenExpiry_default_witness :
    tokenExpiry ⟨"tok", some 42⟩ 100 = (if (42 : Int) = 0 then 100 + 30 * 60 * 1000 else 42)
    ∧ tokenExpiry ⟨"tok", none⟩ 100 = 100 + 30 * 60 * 1000 :=
  tokenExpiry_default ⟨"tok", some 42⟩ 100 42 rfl

/-- C10.  The registered argument schema keeps exactly the properties
declared with type `string` or `object`, in declaration order; properties of
any other type (number, boolean, array) are silently dropped
(src/src/index.ts lines 122-131). -/
theorem zodSchema_keys (props : List (String × PropSpec)) :
    (zodSchema props).map Prod.fst
      = (props.filter (fun kv => kv.2.type == "string" || kv.2.type == "object")).map
          Prod.fst
    ∧ zodSchema [("count", ⟨"number", some "n"⟩), ("flag", ⟨"boolean", none⟩),
                 ("items", ⟨"array", none⟩)] = [] :=
  ⟨zodSchema_keys_aux props, rfl⟩

end AzMcp
